import Mathlib

/-!
Shallow embedding of the gradual-selection control scripts
(`GradualSelection_AGRG.py` and `Gradual_Selection_v2.py`).

The scripts drive an external photogrammetry engine (Metashape): per stage
they repeatedly evaluate a per-point scalar metric, sort it, pick a
percentile threshold, select-and-remove the points at or above it, re-run
camera optimization, and test stop conditions.  The point cloud is embedded
as the list of per-point metric values (for the stage's active criterion);
camera optimization is an opaque parameter `refit : List ℚ → List ℚ`
re-evaluating the metric of the surviving points.  Python exceptions are
embedded explicitly: `int()` truncation, negative indexing with
`IndexError`, the `NameError`s raised by the scripts' misspelled
identifiers (`Trtue`, `global_Thresh`), and the `ZeroDivisionError` of the
camera-error report.
-/

namespace Agisoft

/-! ### Definitions -/

/-- Python `int()` applied to an exact rational: truncation toward zero. -/
def pyInt (q : ℚ) : ℤ := if 0 ≤ q then ⌊q⌋ else -⌊-q⌋

/-- Python list indexing `xs[i]`: negative indices count from the end;
`none` models an uncaught `IndexError`. -/
def pyIndex (xs : List ℚ) (i : ℤ) : Option ℚ :=
  let j : ℤ := if i < 0 then i + xs.length else i
  if h : 0 ≤ j ∧ j.toNat < xs.length then some (xs.get ⟨j.toNat, h.2⟩) else none

/-- `values.sort()`: ascending sort of the metric values. -/
def sortQ (xs : List ℚ) : List ℚ := List.insertionSort (· ≤ ·) xs

/-- `values.sort(); thresh = values[int(len(values) * (1 - p / 100))]` —
the per-iteration selection threshold computed by every stage loop
(e.g. `Gradual_Selection_v2.py` lines 69–71). -/
def computeThresh (values : List ℚ) (p : ℚ) : Option ℚ :=
  pyIndex (sortQ values) (pyInt ((values.length : ℚ) * (1 - p / 100)))

/-- The spec's formula for the same threshold:
`threshold = values[floor(N * (1 - removalPercentage/100))]` over the
ascending-sorted values. -/
def specThresh (values : List ℚ) (p : ℚ) : Option ℚ :=
  (sortQ values).get? (Int.toNat ⌊(values.length : ℚ) * (1 - p / 100)⌋)

/-- Modelled from the spec: the engine calls
`f.selectPoints(thresh)` / `pc.removeSelectedPoints()` live in Metashape,
not in this repository; per the spec they remove every point whose metric
is ≥ the threshold (ties at the threshold included).  The surviving cloud
is therefore the points strictly below the threshold. -/
def removeAtThresh (points : List ℚ) (t : ℚ) : List ℚ :=
  points.filter (fun v => decide (v < t))

/-- Modelled from the spec: `nselected = len([p for p in pc.points if p.selected])`
counts the points selected by the filter, i.e. those with metric ≥ threshold. -/
def nselectedAt (points : List ℚ) (t : ℚ) : ℕ :=
  (points.filter (fun v => decide (t ≤ v))).length

/-- Synthetic metric array `[0.1, 0.2, ..., 1.0]` from the spec's test vector. -/
def tenPoints : List ℚ :=
  [1/10, 2/10, 3/10, 4/10, 5/10, 6/10, 7/10, 8/10, 9/10, 1]

/-- The nine survivors of one 10%-removal iteration on `tenPoints`. -/
def ninePoints : List ℚ :=
  [1/10, 2/10, 3/10, 4/10, 5/10, 6/10, 7/10, 8/10, 9/10]

/-- Three-point metric array used for the C7 counterexample. -/
def threePoints : List ℚ := [1/10, 2/10, 3/10]

/-- Python exceptions the scripts can raise: `IndexError` from list
indexing, `NameError` from the misspelled identifiers `Trtue`
(`GradualSelection_AGRG.py` line 72) and `global_Thresh`
(`Gradual_Selection_v2.py` line 209), and `ZeroDivisionError` from the
camera-error report. -/
inductive PyErr where
  | indexError
  | nameErrorTrtue
  | nameErrorGlobalThresh
  | zeroDivisionError
deriving DecidableEq

/-- Outcome of a stage loop: `done` (loop flag set, normal termination),
`err` (an uncaught Python exception aborts the script), or `fuelOut`
(model artifact: the fuel bounding the unbounded `while` ran out).  Each
carries the surviving cloud at that moment, the iteration count, and the
cumulative number of points removed. -/
inductive StageOut where
  | done (pts : List ℚ) (iters : ℕ) (total : ℕ)
  | err (e : PyErr) (pts : List ℚ) (iters : ℕ) (total : ℕ)
  | fuelOut (pts : List ℚ) (iters : ℕ) (total : ℕ)
deriving DecidableEq

def StageOut.ptsOf : StageOut → List ℚ
  | StageOut.done pts _ _ => pts
  | StageOut.err _ pts _ _ => pts
  | StageOut.fuelOut pts _ _ => pts

def StageOut.itersOf : StageOut → ℕ
  | StageOut.done _ n _ => n
  | StageOut.err _ _ n _ => n
  | StageOut.fuelOut _ n _ => n

def StageOut.errOf : StageOut → Option PyErr
  | StageOut.err e _ _ _ => some e
  | _ => none

/-- The post-check stage loop shared by the RU and PA stages of
`Gradual_Selection_v2.py` (lines 64–96 and 124–159) and the PA stage of
`GradualSelection_AGRG.py` (lines 105–129): each pass sorts the metric,
indexes the percentile threshold (`IndexError` when the cloud is empty),
removes the selection, increments the counters, refits the cameras, and
only then tests the stop conditions — first the cumulative-removal cap
`total_removed >= init * (threshMax / 100)`, `elif values[-1] <= target`.
`init` is the point count captured at stage entry; `refit` is the opaque
`chunk.optimizeCameras`, re-evaluating the surviving points' metric. -/
def postCheckRun (refit : List ℚ → List ℚ) (p maxP target : ℚ) (init : ℕ) :
    ℕ → List ℚ → ℕ → ℕ → StageOut
  | 0, pts, iters, total => StageOut.fuelOut pts iters total
  | Nat.succ fuel, pts, iters, total =>
    match computeThresh pts p with
    | none => StageOut.err PyErr.indexError pts iters total
    | some t =>
      let total1 := total + nselectedAt pts t
      let pts2 := refit (removeAtThresh pts t)
      if (init : ℚ) * (maxP / 100) ≤ (total1 : ℚ) then
        StageOut.done pts2 (iters + 1) total1
      else
        match pyIndex (sortQ pts) (-1) with
        | none => StageOut.err PyErr.indexError pts2 (iters + 1) total1
        | some last =>
          if last ≤ target then StageOut.done pts2 (iters + 1) total1
          else postCheckRun refit p maxP target init fuel pts2 (iters + 1) total1

/-- A whole post-check stage started on cloud `pts` (counters zeroed,
`init` captured as the entry point count, per the source). -/
def postCheckStage (refit : List ℚ → List ℚ) (p maxP target : ℚ)
    (fuel : ℕ) (pts : List ℚ) : StageOut :=
  postCheckRun refit p maxP target pts.length fuel pts 0 0

/-- The RU stage of `GradualSelection_AGRG.py` (lines 52–83): after
removing the iteration's selection the script calls `chunk.optimizeCameras`
with the argument `fit_k4=Trtue` (line 72); evaluating the undefined name
`Trtue` raises `NameError`, so the refit never executes and the stage
aborts during its first iteration — before `total_removed` is updated
(line 75) and before either stop condition (lines 76–83, both of which
also assign the wrong flag variable `refined`) is reached. -/
def agrgRUstage (p : ℚ) (pts : List ℚ) : StageOut :=
  match computeThresh pts p with
  | none => StageOut.err PyErr.indexError pts 0 0
  | some t =>
    StageOut.err PyErr.nameErrorTrtue (removeAtThresh pts t) 1 0

/-- The RE stage of `Gradual_Selection_v2.py` (lines 185–220): each pass
removes the selection and refits, then evaluates
`len(pc.points) <= global_Thresh` (line 209); the name `global_Thresh` is
unbound (line 47 assigned `global_thresh`), so the first stop-condition
check of the first iteration raises `NameError` and the stage aborts —
the max-iteration check (line 214, which itself assigns the misspelled
flag `RE_refrined`) and the target-value check (line 218) are never
reached. -/
def v2REstage (refit : List ℚ → List ℚ) (p : ℚ) (pts : List ℚ) : StageOut :=
  match computeThresh pts p with
  | none => StageOut.err PyErr.indexError pts 0 0
  | some t =>
    StageOut.err PyErr.nameErrorGlobalThresh
      (refit (removeAtThresh pts t)) 1 (nselectedAt pts t)

/-- Outcome of the AGRG RE stage loop, carrying the surviving cloud and
the final `sum_re` removal-iteration counter. -/
inductive REOut where
  | done (pts : List ℚ) (iters : ℕ)
  | err (e : PyErr) (pts : List ℚ) (iters : ℕ)
  | fuelOut (pts : List ℚ) (iters : ℕ)
deriving DecidableEq

def REOut.ptsOf : REOut → List ℚ
  | REOut.done pts _ => pts
  | REOut.err _ pts _ => pts
  | REOut.fuelOut pts _ => pts

def REOut.itersOf : REOut → ℕ
  | REOut.done _ n => n
  | REOut.err _ _ n => n
  | REOut.fuelOut _ n => n

/-- The RE stage of `GradualSelection_AGRG.py` (lines 151–176): unlike the
other loops it checks its stop conditions *before* removing —
`if values[-1] <= RE_Value or sum_re >= RE_MaxIter: break`, else it
removes the percentile selection, increments `sum_re` and refits. -/
def agrgRErun (refit : List ℚ → List ℚ) (p target : ℚ) (maxIter : ℕ) :
    ℕ → ℕ → List ℚ → REOut
  | 0, sumRe, pts => REOut.fuelOut pts sumRe
  | Nat.succ fuel, sumRe, pts =>
    match pyIndex (sortQ pts) (-1) with
    | none => REOut.err PyErr.indexError pts sumRe
    | some last =>
      if last ≤ target ∨ maxIter ≤ sumRe then REOut.done pts sumRe
      else
        match computeThresh pts p with
        | none => REOut.err PyErr.indexError pts sumRe
        | some t =>
          agrgRErun refit p target maxIter fuel (sumRe + 1)
            (refit (removeAtThresh pts t))

/-- The whole `Gradual_Selection_v2.py` run: RU stage, then PA stage, then
the RE stage, chained on success; `reeval` models switching the per-point
metric to the next stage's criterion (same points, new values). -/
def v2WholeRun (refit reeval : List ℚ → List ℚ)
    (pRU maxRU tRU pPA maxPA tPA pRE : ℚ) (fuel : ℕ) (pts : List ℚ) :
    StageOut :=
  match postCheckStage refit pRU maxRU tRU fuel pts with
  | StageOut.done pts1 _ _ =>
    match postCheckStage refit pPA maxPA tPA fuel (reeval pts1) with
    | StageOut.done pts2 _ _ => v2REstage refit pRE (reeval pts2)
    | out => out
  | out => out

/-- The whole `GradualSelection_AGRG.py` run, reduced to the surviving
cloud at script exit (normal or aborted): the RU stage (which in fact
always stops with the `Trtue` `NameError`), then the PA stage, then the
RE stage, each next stage entered only on normal termination of the
previous one; `reeval` models switching the per-point metric to the next
stage's criterion (same points, new values). -/
def agrgWholeRun (refit reeval : List ℚ → List ℚ)
    (pRU pPA maxPA tPA pRE tRE : ℚ) (maxIter fuel : ℕ) (pts : List ℚ) :
    List ℚ :=
  match agrgRUstage pRU pts with
  | StageOut.done pts1 _ _ =>
    match postCheckStage refit pPA maxPA tPA fuel (reeval pts1) with
    | StageOut.done pts2 _ _ =>
      (agrgRErun refit pRE tRE maxIter fuel 0 (reeval pts2)).ptsOf
    | out => out.ptsOf
  | out => out.ptsOf

/-- Estimated or reference 3-D position in the reconstruction's
geocentric frame. -/
abbrev Vec3 := ℚ × ℚ × ℚ

def vsub (a b : Vec3) : Vec3 := (a.1 - b.1, a.2.1 - b.2.1, a.2.2 - b.2.2)

/-- Squared Euclidean norm.  The script computes `error.norm() ** 2`,
which in exact arithmetic equals the sum of squared components. -/
def normSq (v : Vec3) : ℚ := v.1 ^ 2 + v.2.1 ^ 2 + v.2.2 ^ 2

/-- A camera as the error report sees it: `transform` is the truthiness
of `camera.transform` (whether the pose was solved), `refLoc` the
optional `camera.reference.location`, `center` the estimated camera
center `camera.center`. -/
structure Camera where
  transform : Bool
  refLoc : Option Vec3
  center : Vec3

/-- A camera enters the RMS computation iff it has both a solved
transform and a reference location. -/
def camQualifies (c : Camera) : Bool := c.transform && c.refLoc.isSome

/-- The camera-error accumulation loop (`for camera in chunk.cameras`,
`GradualSelection_AGRG.py` lines 86–97 and the analogous v2 blocks):
cameras without a solved transform or without a reference location are
skipped via `continue`; otherwise the squared norm of
`crs.unproject(camera.reference.location) - T.mulp(camera.center)` is
accumulated and the count incremented.  `mulp` (the chunk transform) and
`unproj` (the CRS unprojection) are the engine's coordinate maps, taken
as parameters. -/
def camFold (mulp unproj : Vec3 → Vec3) : ℚ × ℕ → List Camera → ℚ × ℕ
  | acc, [] => acc
  | acc, c :: rest =>
    match c.transform, c.refLoc with
    | true, some loc =>
      camFold mulp unproj
        (acc.1 + normSq (vsub (unproj loc) (mulp c.center)), acc.2 + 1) rest
    | _, _ => camFold mulp unproj acc rest

/-- The ratio `sums / num` whose square root the script prints
(`math.sqrt(sums / num)`).  `none` models the uncaught
`ZeroDivisionError` raised when no camera qualifies (`num = 0`) — the
script has no "N/A" branch. -/
def totalCameraError (mulp unproj : Vec3 → Vec3) (cams : List Camera) :
    Option ℚ :=
  let sn := camFold mulp unproj (0, 0) cams
  if sn.2 = 0 then none else some (sn.1 / sn.2)

/-- Squared position error contributed by one qualifying camera. -/
def camErr (mulp unproj : Vec3 → Vec3) (c : Camera) : ℚ :=
  match c.refLoc with
  | some loc => normSq (vsub (unproj loc) (mulp c.center))
  | none => 0

/-- The spec's two-camera test vector: both cameras solved and
referenced at the origin, with estimated centers `(0,0,0)` and
`(1,0,0)`. -/
def testCams : List Camera :=
  [⟨true, some (0, 0, 0), (0, 0, 0)⟩, ⟨true, some (0, 0, 0), (1, 0, 0)⟩]

/-! ### Basic lemmas about the primitives -/

theorem pyInt_of_nonneg (q : ℚ) (h : 0 ≤ q) : pyInt q = ⌊q⌋ := by
  simp [pyInt, h]

theorem pyIndex_of_nonneg (xs : List ℚ) (i : ℤ) (h : 0 ≤ i) :
    pyIndex xs i = xs.get? i.toNat := by
  unfold pyIndex
  have hnot : ¬ i < 0 := not_lt.2 h
  simp only [hnot, if_false]
  split
  · rename_i hin
    exact (List.get?_eq_get hin.2).symm
  · rename_i hout
    have : ¬ i.toNat < xs.length := fun hc => hout ⟨h, hc⟩
    exact (List.get?_eq_none.2 (le_of_not_lt this)).symm

theorem pyIndex_mem (xs : List ℚ) (i : ℤ) (v : ℚ) (h : pyIndex xs i = some v) :
    v ∈ xs := by
  simp only [pyIndex] at h
  split at h <;> split at h <;>
    first
      | exact (Option.some_inj.1 h) ▸ List.get_mem xs _ _
      | exact absurd h (by simp)

theorem mem_sortQ (xs : List ℚ) (v : ℚ) : v ∈ sortQ xs ↔ v ∈ xs :=
  (List.perm_insertionSort (· ≤ ·) xs).mem_iff

theorem length_sortQ (xs : List ℚ) : (sortQ xs).length = xs.length :=
  (List.perm_insertionSort (· ≤ ·) xs).length_eq

theorem pyIndex_neg_one (xs : List ℚ) (h : xs ≠ []) :
    ∃ v, pyIndex xs (-1) = some v ∧ v ∈ xs := by
  have hlen : 0 < xs.length := List.length_pos.2 h
  have hj : (0 : ℤ) ≤ -1 + xs.length := by
    have : (1 : ℤ) ≤ xs.length := by exact_mod_cast hlen
    omega
  have hjn : (-1 + (xs.length : ℤ)).toNat < xs.length := by omega
  refine ⟨xs.get ⟨(-1 + (xs.length : ℤ)).toNat, hjn⟩, ?_, List.get_mem xs _ _⟩
  unfold pyIndex
  have hneg : (-1 : ℤ) < 0 := by norm_num
  simp only [hneg, if_true]
  rw [dif_pos ⟨hj, hjn⟩]

theorem computeThresh_isSome (pts : List ℚ) (p : ℚ)
    (hne : pts ≠ []) (hp0 : 0 < p) (hp1 : p ≤ 100) :
    ∃ t, computeThresh pts p = some t ∧ t ∈ pts := by
  have hlen : 0 < pts.length := List.length_pos.2 hne
  set a : ℚ := (pts.length : ℚ) * (1 - p / 100) with ha
  have ha0 : 0 ≤ a := by
    apply mul_nonneg (by positivity)
    have : p / 100 ≤ 1 := by linarith
    linarith
  have haN : a < (pts.length : ℚ) := by
    have h1 : 1 - p / 100 < 1 := by
      have : 0 < p / 100 := by positivity
      linarith
    calc a < (pts.length : ℚ) * 1 := by
          apply mul_lt_mul_of_pos_left h1
          exact_mod_cast hlen
      _ = (pts.length : ℚ) := mul_one _
  have hfl0 : 0 ≤ ⌊a⌋ := Int.floor_nonneg.2 ha0
  have hflN : ⌊a⌋ < (pts.length : ℤ) := by
    rw [Int.floor_lt]
    exact_mod_cast haN
  have hint : pyInt a = ⌊a⌋ := pyInt_of_nonneg a ha0
  have hjn : (⌊a⌋).toNat < (sortQ pts).length := by
    rw [length_sortQ]; omega
  unfold computeThresh
  rw [← ha, hint]
  unfold pyIndex
  have hnot : ¬ ⌊a⌋ < 0 := by omega
  simp only [hnot, if_false]
  rw [dif_pos ⟨hfl0, by rw [length_sortQ]; omega⟩]
  exact ⟨_, rfl, (mem_sortQ pts _).1 (List.get_mem _ _ _)⟩

theorem sortQ_ne_nil (pts : List ℚ) (hne : pts ≠ []) : sortQ pts ≠ [] := by
  intro hc
  apply hne
  have hlen := length_sortQ pts
  rw [hc] at hlen
  exact List.length_eq_zero.1 hlen.symm

set_option maxHeartbeats 2000000 in
/-- Unfolding equation of `postCheckRun` for a positive fuel budget. -/
theorem postCheckRun_succ (refit : List ℚ → List ℚ) (p maxP target : ℚ)
    (init fuel : ℕ) (pts : List ℚ) (iters total : ℕ) :
    postCheckRun refit p maxP target init (fuel + 1) pts iters total =
      match computeThresh pts p with
      | none => StageOut.err PyErr.indexError pts iters total
      | some t =>
        let total1 := total + nselectedAt pts t
        let pts2 := refit (removeAtThresh pts t)
        if (init : ℚ) * (maxP / 100) ≤ (total1 : ℚ) then
          StageOut.done pts2 (iters + 1) total1
        else
          match pyIndex (sortQ pts) (-1) with
          | none => StageOut.err PyErr.indexError pts2 (iters + 1) total1
          | some last =>
            if last ≤ target then StageOut.done pts2 (iters + 1) total1
            else postCheckRun refit p maxP target init fuel pts2 (iters + 1) total1 := by
  rw [postCheckRun]

/-! ### Concrete evaluations -/

theorem tenPoints_sorted : sortQ tenPoints = tenPoints := by
  apply List.Sorted.insertionSort_eq
  norm_num [tenPoints, List.sorted_cons]

theorem threePoints_sorted : sortQ threePoints = threePoints := by
  apply List.Sorted.insertionSort_eq
  norm_num [threePoints, List.sorted_cons]

theorem floor_mul_ten_five : pyInt ((10 : ℚ) * (1 - 5 / 100)) = 9 := by
  have h : ((10 : ℚ) * (1 - 5 / 100)) = 19 / 2 := by norm_num
  rw [pyInt, h, if_pos (by norm_num : (0 : ℚ) ≤ 19 / 2)]
  exact Int.floor_eq_iff.2 (by norm_num)

theorem floor_mul_ten_ten : pyInt ((10 : ℚ) * (1 - 10 / 100)) = 9 := by
  have h : ((10 : ℚ) * (1 - 10 / 100)) = 9 := by norm_num
  rw [pyInt, h, if_pos (by norm_num : (0 : ℚ) ≤ 9)]
  exact Int.floor_eq_iff.2 (by norm_num)

theorem computeThresh_tenPoints_five : computeThresh tenPoints 5 = some 1 := by
  have hlen : ((tenPoints.length : ℕ) : ℚ) = 10 := by norm_num [tenPoints]
  rw [computeThresh, tenPoints_sorted, hlen, floor_mul_ten_five]
  rfl

theorem computeThresh_tenPoints_ten : computeThresh tenPoints 10 = some 1 := by
  have hlen : ((tenPoints.length : ℕ) : ℚ) = 10 := by norm_num [tenPoints]
  rw [computeThresh, tenPoints_sorted, hlen, floor_mul_ten_ten]
  rfl

theorem removeAt_one_tenPoints : removeAtThresh tenPoints 1 = ninePoints := by
  norm_num [removeAtThresh, tenPoints, ninePoints, List.filter_cons,
    decide_eq_true_eq]

theorem nselected_one_tenPoints : nselectedAt tenPoints 1 = 1 := by
  norm_num [nselectedAt, tenPoints, List.filter_cons, decide_eq_true_eq]

/-! ### Removal semantics -/

theorem mem_removeAtThresh (pts : List ℚ) (t v : ℚ) :
    v ∈ removeAtThresh pts t ↔ v ∈ pts ∧ v < t := by
  simp [removeAtThresh, List.mem_filter]

theorem remove_select_partition (pts : List ℚ) (t : ℚ) :
    (removeAtThresh pts t).length + nselectedAt pts t = pts.length := by
  unfold removeAtThresh nselectedAt
  induction pts with
  | nil => rfl
  | cons a l ih =>
    by_cases h : a < t
    · rw [List.filter_cons_of_pos (by simpa using h),
        List.filter_cons_of_neg (by simpa using not_le.2 h)]
      simp only [List.length_cons]
      omega
    · rw [List.filter_cons_of_neg (by simpa using h),
        List.filter_cons_of_pos (by simpa using not_lt.1 h)]
      simp only [List.length_cons]
      omega

theorem length_removeAtThresh_le (pts : List ℚ) (t : ℚ) :
    (removeAtThresh pts t).length ≤ pts.length :=
  List.length_filter_le _ pts

/-! ### Camera-error report lemmas -/

theorem camFold_characterization (mulp unproj : Vec3 → Vec3)
    (acc : ℚ × ℕ) (cams : List Camera) :
    camFold mulp unproj acc cams =
      (acc.1 + ((cams.filter camQualifies).map (camErr mulp unproj)).sum,
       acc.2 + (cams.filter camQualifies).length) := by
  induction cams generalizing acc with
  | nil => simp [camFold]
  | cons c rest ih =>
    rcases c with ⟨tr, loc, ctr⟩
    cases tr <;> rcases loc with - | l <;>
      simp [camFold, camQualifies, camErr, ih, List.filter_cons, add_assoc,
        add_comm, add_left_comm]

/-! ### Stage-loop lemmas -/

theorem agrgRErun_iters_le_max (refit : List ℚ → List ℚ) (p target : ℚ)
    (maxIter fuel sumRe : ℕ) (pts : List ℚ) :
    (agrgRErun refit p target maxIter fuel sumRe pts).itersOf ≤ max sumRe maxIter := by
  induction fuel generalizing sumRe pts with
  | zero =>
    simp [agrgRErun, REOut.itersOf]
  | succ fuel ih =>
    simp only [agrgRErun]
    cases hlast : pyIndex (sortQ pts) (-1) with
    | none => simp [REOut.itersOf]
    | some last =>
      by_cases hstop : last ≤ target ∨ maxIter ≤ sumRe
      · simp [hstop, REOut.itersOf]
      · simp only [hstop, if_false]
        cases ht : computeThresh pts p with
        | none => simp [REOut.itersOf]
        | some t =>
          have hlt : sumRe < maxIter := by
            rcases not_or.1 hstop with ⟨-, h2⟩
            omega
          calc (agrgRErun refit p target maxIter fuel (sumRe + 1)
                  (refit (removeAtThresh pts t))).itersOf
              ≤ max (sumRe + 1) maxIter := ih (sumRe + 1) _
            _ ≤ max sumRe maxIter := by omega

theorem postCheckRun_length_le (refit : List ℚ → List ℚ)
    (hrefit : ∀ l, (refit l).length = l.length) (p maxP target : ℚ)
    (init fuel : ℕ) (pts : List ℚ) (iters total : ℕ) :
    (postCheckRun refit p maxP target init fuel pts iters total).ptsOf.length ≤
      pts.length := by
  induction fuel generalizing pts iters total with
  | zero => simp [postCheckRun, StageOut.ptsOf]
  | succ fuel ih =>
    rw [postCheckRun_succ]
    cases ht : computeThresh pts p with
    | none => simp [StageOut.ptsOf]
    | some t =>
      have hlen : (refit (removeAtThresh pts t)).length ≤ pts.length := by
        rw [hrefit]
        exact length_removeAtThresh_le pts t
      dsimp only
      split
      next => simpa [StageOut.ptsOf] using hlen
      next =>
        cases hlast : pyIndex (sortQ pts) (-1) with
        | none => simpa [StageOut.ptsOf] using hlen
        | some last =>
          dsimp only
          split
          next => simpa [StageOut.ptsOf] using hlen
          next => exact le_trans (ih _ _ _) hlen

theorem agrgRErun_length_le (refit : List ℚ → List ℚ)
    (hrefit : ∀ l, (refit l).length = l.length) (p target : ℚ)
    (maxIter fuel sumRe : ℕ) (pts : List ℚ) :
    (agrgRErun refit p target maxIter fuel sumRe pts).ptsOf.length ≤
      pts.length := by
  induction fuel generalizing sumRe pts with
  | zero => simp [agrgRErun, REOut.ptsOf]
  | succ fuel ih =>
    simp only [agrgRErun]
    cases hlast : pyIndex (sortQ pts) (-1) with
    | none => simp [REOut.ptsOf]
    | some last =>
      dsimp only
      split
      next => simp [REOut.ptsOf]
      next =>
        cases ht : computeThresh pts p with
        | none => simp [REOut.ptsOf]
        | some t =>
          dsimp only
          refine le_trans (ih _ _) ?_
          rw [hrefit]
          exact length_removeAtThresh_le pts t

theorem v2REstage_length_le (refit : List ℚ → List ℚ)
    (hrefit : ∀ l, (refit l).length = l.length) (p : ℚ) (pts : List ℚ) :
    (v2REstage refit p pts).ptsOf.length ≤ pts.length := by
  unfold v2REstage
  cases ht : computeThresh pts p with
  | none => simp [StageOut.ptsOf]
  | some t =>
    dsimp only [StageOut.ptsOf]
    rw [hrefit]
    exact length_removeAtThresh_le pts t

theorem postCheckStage_length_le (refit : List ℚ → List ℚ)
    (hrefit : ∀ l, (refit l).length = l.length) (p maxP target : ℚ)
    (fuel : ℕ) (pts : List ℚ) :
    (postCheckStage refit p maxP target fuel pts).ptsOf.length ≤ pts.length :=
  postCheckRun_length_le refit hrefit p maxP target pts.length fuel pts 0 0

theorem agrgRUstage_length_le (p : ℚ) (pts : List ℚ) :
    (agrgRUstage p pts).ptsOf.length ≤ pts.length := by
  unfold agrgRUstage
  cases ht : computeThresh pts p with
  | none => simp [StageOut.ptsOf]
  | some t =>
    dsimp only [StageOut.ptsOf]
    exact length_removeAtThresh_le pts t

theorem v2WholeRun_length_le (refit reeval : List ℚ → List ℚ)
    (hrefit : ∀ l, (refit l).length = l.length)
    (hreeval : ∀ l, (reeval l).length = l.length)
    (pRU maxRU tRU pPA maxPA tPA pRE : ℚ) (fuel : ℕ) (pts : List ℚ) :
    (v2WholeRun refit reeval pRU maxRU tRU pPA maxPA tPA pRE fuel pts).ptsOf.length ≤
      pts.length := by
  unfold v2WholeRun
  cases h1 : postCheckStage refit pRU maxRU tRU fuel pts with
  | done pts1 i1 t1 =>
    dsimp only
    have hle1 : pts1.length ≤ pts.length := by
      have h := postCheckStage_length_le refit hrefit pRU maxRU tRU fuel pts
      rw [h1] at h
      simpa [StageOut.ptsOf] using h
    cases h2 : postCheckStage refit pPA maxPA tPA fuel (reeval pts1) with
    | done pts2 i2 t2 =>
      dsimp only
      have hle2 : pts2.length ≤ pts1.length := by
        have h := postCheckStage_length_le refit hrefit pPA maxPA tPA fuel
          (reeval pts1)
        rw [h2] at h
        simpa [StageOut.ptsOf, hreeval pts1] using h
      calc (v2REstage refit pRE (reeval pts2)).ptsOf.length
          ≤ (reeval pts2).length := v2REstage_length_le refit hrefit pRE _
        _ = pts2.length := hreeval pts2
        _ ≤ pts.length := le_trans hle2 hle1
    | err e pts2 i2 t2 =>
      have h := postCheckStage_length_le refit hrefit pPA maxPA tPA fuel
        (reeval pts1)
      rw [h2] at h
      simp only [StageOut.ptsOf] at h ⊢
      calc pts2.length ≤ (reeval pts1).length := h
        _ = pts1.length := hreeval pts1
        _ ≤ pts.length := hle1
    | fuelOut pts2 i2 t2 =>
      have h := postCheckStage_length_le refit hrefit pPA maxPA tPA fuel
        (reeval pts1)
      rw [h2] at h
      simp only [StageOut.ptsOf] at h ⊢
      calc pts2.length ≤ (reeval pts1).length := h
        _ = pts1.length := hreeval pts1
        _ ≤ pts.length := hle1
  | err e pts1 i1 t1 =>
    have h := postCheckStage_length_le refit hrefit pRU maxRU tRU fuel pts
    rw [h1] at h
    simpa [StageOut.ptsOf] using h
  | fuelOut pts1 i1 t1 =>
    have h := postCheckStage_length_le refit hrefit pRU maxRU tRU fuel pts
    rw [h1] at h
    simpa [StageOut.ptsOf] using h

theorem agrgWholeRun_length_le (refit reeval : List ℚ → List ℚ)
    (hrefit : ∀ l, (refit l).length = l.length)
    (hreeval : ∀ l, (reeval l).length = l.length)
    (pRU pPA maxPA tPA pRE tRE : ℚ) (maxIter fuel : ℕ) (pts : List ℚ) :
    (agrgWholeRun refit reeval pRU pPA maxPA tPA pRE tRE maxIter fuel pts).length ≤
      pts.length := by
  unfold agrgWholeRun
  cases h1 : agrgRUstage pRU pts with
  | done pts1 i1 t1 =>
    dsimp only
    have hle1 : pts1.length ≤ pts.length := by
      have h := agrgRUstage_length_le pRU pts
      rw [h1] at h
      simpa [StageOut.ptsOf] using h
    cases h2 : postCheckStage refit pPA maxPA tPA fuel (reeval pts1) with
    | done pts2 i2 t2 =>
      dsimp only
      have hle2 : pts2.length ≤ pts1.length := by
        have h := postCheckStage_length_le refit hrefit pPA maxPA tPA fuel
          (reeval pts1)
        rw [h2] at h
        simpa [StageOut.ptsOf, hreeval pts1] using h
      calc (agrgRErun refit pRE tRE maxIter fuel 0 (reeval pts2)).ptsOf.length
          ≤ (reeval pts2).length :=
            agrgRErun_length_le refit hrefit pRE tRE maxIter fuel 0 _
        _ = pts2.length := hreeval pts2
        _ ≤ pts.length := le_trans hle2 hle1
    | err e pts2 i2 t2 =>
      have h := postCheckStage_length_le refit hrefit pPA maxPA tPA fuel
        (reeval pts1)
      rw [h2] at h
      simp only [StageOut.ptsOf] at h ⊢
      calc pts2.length ≤ (reeval pts1).length := h
        _ = pts1.length := hreeval pts1
        _ ≤ pts.length := hle1
    | fuelOut pts2 i2 t2 =>
      have h := postCheckStage_length_le refit hrefit pPA maxPA tPA fuel
        (reeval pts1)
      rw [h2] at h
      simp only [StageOut.ptsOf] at h ⊢
      calc pts2.length ≤ (reeval pts1).length := h
        _ = pts1.length := hreeval pts1
        _ ≤ pts.length := hle1
  | err e pts1 i1 t1 =>
    have h := agrgRUstage_length_le pRU pts
    rw [h1] at h
    simpa [StageOut.ptsOf] using h
  | fuelOut pts1 i1 t1 =>
    have h := agrgRUstage_length_le pRU pts
    rw [h1] at h
    simpa [StageOut.ptsOf] using h

/-! ### Claim theorems -/

/-- C1 (code bug): the first stop-condition check of the v2 reprojection-
error stage — the one implementing the cumulative-removal cap via
`len(pc.points) <= global_Thresh` — raises `NameError` (the binding is
spelled `global_thresh`), so the stage aborts during iteration 1 and the
cumulative-removal termination never takes effect there. -/
theorem v2RE_cumulative_check_raises_nameError (refit : List ℚ → List ℚ)
    (p : ℚ) (pts : List ℚ) (hne : pts ≠ []) (hp0 : 0 < p) (hp1 : p ≤ 100) :
    (v2REstage refit p pts).errOf = some PyErr.nameErrorGlobalThresh ∧
    (v2REstage refit p pts).itersOf = 1 := by
  obtain ⟨t, ht, -⟩ := computeThresh_isSome pts p hne hp0 hp1
  unfold v2REstage
  rw [ht]
  simp [StageOut.errOf, StageOut.itersOf]

/-- Witness for C1: the crash happens concretely on the ten-point array
with the script's 5 % removal configuration. -/
theorem v2RE_cumulative_check_raises_nameError_witness :
    (v2REstage id 5 tenPoints).errOf = some PyErr.nameErrorGlobalThresh ∧
    (v2REstage id 5 tenPoints).itersOf = 1 :=
  v2RE_cumulative_check_raises_nameError id 5 tenPoints (by decide)
    (by norm_num) (by norm_num)

/-- C2 (confirmed): in every iteration the removal threshold computed by
the scripts (`values.sort(); values[int(len(values) * (1 - p/100))]`)
coincides with the spec's formula
`values[floor(N * (1 - removalPercentage/100))]` over the
ascending-sorted values, for any removal percentage in `[0, 100]`
(Python's `int()` truncation equals `floor` on the non-negative
argument). -/
theorem computeThresh_eq_specThresh (values : List ℚ) (p : ℚ)
    (_hp0 : 0 ≤ p) (hp1 : p ≤ 100) :
    computeThresh values p = specThresh values p := by
  have ha0 : 0 ≤ (values.length : ℚ) * (1 - p / 100) := by
    apply mul_nonneg (by positivity)
    have : p / 100 ≤ 1 := by linarith
    linarith
  unfold computeThresh specThresh
  rw [pyInt_of_nonneg _ ha0, pyIndex_of_nonneg _ _ (Int.floor_nonneg.2 ha0)]

/-- Witness for C2 at the spec's synthetic ten-point array and 10 % removal. -/
theorem computeThresh_eq_specThresh_witness :
    computeThresh tenPoints 10 = specThresh tenPoints 10 :=
  computeThresh_eq_specThresh tenPoints 10 (by norm_num) (by norm_num)

/-- C3 (code bug): invoked on an already-empty point set, every stage
loop raises `IndexError` (indexing position 0, resp. -1, of the empty
metric array); none reports an `EmptyCloudError` / insufficient-points
condition. -/
theorem stages_empty_cloud_indexError :
    (∀ (refit : List ℚ → List ℚ) (p maxP target : ℚ) (init iters total fuel : ℕ),
      postCheckRun refit p maxP target init (fuel + 1) [] iters total =
        StageOut.err PyErr.indexError [] iters total) ∧
    (∀ (refit : List ℚ → List ℚ) (p target : ℚ) (maxIter sumRe fuel : ℕ),
      agrgRErun refit p target maxIter (fuel + 1) sumRe [] =
        REOut.err PyErr.indexError [] sumRe) ∧
    (∀ (refit : List ℚ → List ℚ) (p : ℚ),
      v2REstage refit p [] = StageOut.err PyErr.indexError [] 0 0) ∧
    (∀ p : ℚ, agrgRUstage p [] = StageOut.err PyErr.indexError [] 0 0) := by
  have hthresh : ∀ p : ℚ, computeThresh [] p = none := by
    intro p
    simp [computeThresh, sortQ, pyIndex, pyInt, List.insertionSort]
  have hlast : pyIndex (sortQ []) (-1) = none := by
    simp [sortQ, pyIndex, List.insertionSort]
  refine ⟨?_, ?_, ?_, ?_⟩
  · intro refit p maxP target init iters total fuel
    rw [postCheckRun_succ, hthresh p]
  · intro refit p target maxIter sumRe fuel
    rw [agrgRErun, hlast]
  · intro refit p
    unfold v2REstage
    rw [hthresh p]
  · intro p
    unfold agrgRUstage
    rw [hthresh p]

/-- C4 (code bug): when no camera has both a solved transform and a
reference location, the accumulation loop leaves `num = 0` and the
report evaluates `math.sqrt(sums / num)` with `num = 0` — an uncaught
`ZeroDivisionError` (modelled by `none`), not the non-fatal "N/A" the
spec requires. -/
theorem cameraError_no_qualifier_divides_by_zero
    (mulp unproj : Vec3 → Vec3) (cams : List Camera)
    (h : ∀ c ∈ cams, camQualifies c = false) :
    totalCameraError mulp unproj cams = none := by
  have hfil : cams.filter camQualifies = [] := by
    rw [List.filter_eq_nil_iff]
    intro c hc
    simp [h c hc]
  unfold totalCameraError
  rw [camFold_characterization, hfil]
  simp

/-- Witness for C4: a single camera with no solved transform and no
reference location. -/
theorem cameraError_no_qualifier_divides_by_zero_witness :
    totalCameraError id id [⟨false, none, (0, 0, 0)⟩] = none :=
  cameraError_no_qualifier_divides_by_zero id id _ (by simp [camQualifies])

/-- C5 (code bug): in the AGRG reconstruction-uncertainty stage the
camera refit is never executed: evaluating `optimizeCameras`' argument
`fit_k4=Trtue` raises `NameError` for any non-empty cloud, aborting the
stage during its first removal iteration with `total_removed` still 0. -/
theorem agrgRU_refit_raises_nameErrorTrtue (p : ℚ) (pts : List ℚ)
    (hne : pts ≠ []) (hp0 : 0 < p) (hp1 : p ≤ 100) :
    ∃ survivors,
      agrgRUstage p pts = StageOut.err PyErr.nameErrorTrtue survivors 1 0 := by
  obtain ⟨t, ht, -⟩ := computeThresh_isSome pts p hne hp0 hp1
  exact ⟨removeAtThresh pts t, by unfold agrgRUstage; rw [ht]⟩

/-- Witness for C5 at the script's RU configuration (10 % per iteration)
on the ten-point array. -/
theorem agrgRU_refit_raises_nameErrorTrtue_witness :
    ∃ survivors,
      agrgRUstage 10 tenPoints = StageOut.err PyErr.nameErrorTrtue survivors 1 0 :=
  agrgRU_refit_raises_nameErrorTrtue 10 tenPoints (by decide)
    (by norm_num) (by norm_num)

/-- C6 (code bug): the AGRG reprojection-error stage (the one whose
max-iteration check works) indeed performs at most `RE_MaxIter` removal
iterations from a zeroed counter, for every input; the v2 reprojection-
error stage instead aborts its very first iteration with the
`global_Thresh` `NameError` before its (itself misspelled,
`RE_refrined`) max-iteration check can ever run — shown here by
evaluating it on the ten-point array. -/
theorem RE_maxIter_bound_and_v2RE_first_iteration_crash :
    (∀ (refit : List ℚ → List ℚ) (p target : ℚ) (maxIter fuel : ℕ)
        (pts : List ℚ),
      (agrgRErun refit p target maxIter fuel 0 pts).itersOf ≤ maxIter) ∧
    v2REstage id 5 tenPoints =
      StageOut.err PyErr.nameErrorGlobalThresh ninePoints 1 1 := by
  constructor
  · intro refit p target maxIter fuel pts
    have h := agrgRErun_iters_le_max refit p target maxIter fuel 0 pts
    simpa using h
  · unfold v2REstage
    rw [computeThresh_tenPoints_five]
    norm_num [removeAt_one_tenPoints, nselected_one_tenPoints]

/-- C7 counterexample: with the target value 1 set above the maximum
metric value 0.3, the AGRG reprojection-error stage checks the target
*before* removing and terminates with zero removal iterations — not
exactly one as the claim states. -/
theorem agrgRE_target_above_max_zero_iterations :
    agrgRErun id 10 1 3 5 0 threePoints = REOut.done threePoints 0 ∧
    ¬ (agrgRErun id 10 1 3 5 0 threePoints).itersOf = 1 := by
  have hlast : pyIndex (sortQ threePoints) (-1) = some (3 / 10) := by
    rw [threePoints_sorted]
    rfl
  have h : agrgRErun id 10 1 3 5 0 threePoints = REOut.done threePoints 0 := by
    have h5 : (5 : ℕ) = 4 + 1 := rfl
    rw [h5, agrgRErun, hlast]
    norm_num
  refine ⟨h, ?_⟩
  rw [h]
  simp [REOut.itersOf]

/-- C7 amended: when the configured target value exceeds every metric
value at stage entry, a stage that checks its stop conditions *after*
removal (the RU/PA loops) terminates after exactly one removal-plus-refit
iteration, while the AGRG reprojection-error stage, which checks before
removing, terminates after zero removal iterations. -/
theorem target_above_max_iteration_count (refit : List ℚ → List ℚ)
    (p maxP target : ℚ) (pts : List ℚ) (fuel maxIter : ℕ)
    (hne : pts ≠ []) (hp0 : 0 < p) (hp1 : p ≤ 100)
    (htgt : ∀ v ∈ pts, v < target) :
    (∃ s tot, postCheckStage refit p maxP target (fuel + 1) pts =
        StageOut.done s 1 tot) ∧
    agrgRErun refit p target maxIter (fuel + 1) 0 pts = REOut.done pts 0 := by
  obtain ⟨t, ht, -⟩ := computeThresh_isSome pts p hne hp0 hp1
  have hsne : sortQ pts ≠ [] := sortQ_ne_nil pts hne
  obtain ⟨last, hl, hmem⟩ := pyIndex_neg_one (sortQ pts) hsne
  have hle : last ≤ target := le_of_lt (htgt last ((mem_sortQ pts last).1 hmem))
  constructor
  · rw [postCheckStage, postCheckRun_succ, ht, hl]
    dsimp only
    split
    all_goals exact ⟨_, _, rfl⟩
  · rw [agrgRErun, hl]
    dsimp only
    rw [if_pos (Or.inl hle)]

/-- Witness for C7's amended statement at target 1 over `threePoints`. -/
theorem target_above_max_iteration_count_witness :
    (∃ s tot, postCheckStage id 10 45 1 5 threePoints = StageOut.done s 1 tot) ∧
    agrgRErun id 10 1 3 5 0 threePoints = REOut.done threePoints 0 :=
  target_above_max_iteration_count id 10 45 1 threePoints 4 3 (by decide)
    (by norm_num) (by norm_num) (by norm_num [threePoints])

/-- C8 (confirmed, removal semantics modelled from the spec): a point
survives an iteration iff its metric is strictly below the threshold, the
removed (selected) points and the survivors partition the cloud (ties at
the threshold are removed, not an exact top-k), and on the synthetic
array `[0.1, ..., 1.0]` with 10 % removal the threshold is the maximum
`1.0` and exactly one point — the maximum — is removed. -/
theorem removal_threshold_semantics :
    (∀ (pts : List ℚ) (t v : ℚ),
      v ∈ removeAtThresh pts t ↔ v ∈ pts ∧ v < t) ∧
    (∀ (pts : List ℚ) (t : ℚ),
      (removeAtThresh pts t).length + nselectedAt pts t = pts.length) ∧
    computeThresh tenPoints 10 = some 1 ∧
    nselectedAt tenPoints 1 = 1 ∧
    removeAtThresh tenPoints 1 = ninePoints :=
  ⟨mem_removeAtThresh, remove_select_partition, computeThresh_tenPoints_ten,
    nselected_one_tenPoints, removeAt_one_tenPoints⟩

/-- C9 (confirmed): the camera-error report accumulates exactly over the
cameras having both a solved transform and a reference location (the
others are skipped and not counted), summing the squared distances
between the unprojected reference location and the transformed estimated
center; on the spec's two-camera test vector the mean square is `1/2`,
so the reported RMS is `sqrt(1/2) ≈ 0.707`. -/
theorem cameraError_characterization_and_example :
    (∀ (mulp unproj : Vec3 → Vec3) (cams : List Camera),
      camFold mulp unproj (0, 0) cams =
        (((cams.filter camQualifies).map (camErr mulp unproj)).sum,
         (cams.filter camQualifies).length)) ∧
    totalCameraError id id testCams = some (1 / 2) ∧
    (totalCameraError id id testCams).map (fun q => Real.sqrt (q : ℝ)) =
      some (Real.sqrt ((1 : ℝ) / 2)) := by
  have hval : totalCameraError id id testCams = some (1 / 2) := by
    norm_num [totalCameraError, testCams, camFold, normSq, vsub]
  refine ⟨?_, hval, ?_⟩
  · intro mulp unproj cams
    simpa using camFold_characterization mulp unproj (0, 0) cams
  · rw [hval]
    have hc : ((1 / 2 : ℚ) : ℝ) = (1 : ℝ) / 2 := by push_cast; ring
    simp [hc]

/-- C10 (confirmed): point removal only ever shrinks the cloud — for any
length-preserving refit and metric re-evaluation, the surviving point
count at exit of every stage loop of both scripts (the v2 RU/PA and AGRG
PA loops, the AGRG RE loop, the AGRG RU stage, the v2 RE stage inside
the whole-run conjuncts), in every outcome (normal, crashed, or out of
fuel), is at most the count at entry, and the same holds across the
chained three-stage runs of both scripts. -/
theorem point_count_nonincreasing (refit reeval : List ℚ → List ℚ)
    (hrefit : ∀ l, (refit l).length = l.length)
    (hreeval : ∀ l, (reeval l).length = l.length) :
    (∀ (p maxP target : ℚ) (init fuel : ℕ) (pts : List ℚ) (iters total : ℕ),
      (postCheckRun refit p maxP target init fuel pts iters total).ptsOf.length ≤
        pts.length) ∧
    (∀ (p target : ℚ) (maxIter fuel sumRe : ℕ) (pts : List ℚ),
      (agrgRErun refit p target maxIter fuel sumRe pts).ptsOf.length ≤
        pts.length) ∧
    (∀ (p : ℚ) (pts : List ℚ),
      (agrgRUstage p pts).ptsOf.length ≤ pts.length) ∧
    (∀ (pRU maxRU tRU pPA maxPA tPA pRE : ℚ) (fuel : ℕ) (pts : List ℚ),
      (v2WholeRun refit reeval pRU maxRU tRU pPA maxPA tPA pRE fuel pts).ptsOf.length ≤
        pts.length) ∧
    (∀ (pRU pPA maxPA tPA pRE tRE : ℚ) (maxIter fuel : ℕ) (pts : List ℚ),
      (agrgWholeRun refit reeval pRU pPA maxPA tPA pRE tRE maxIter fuel pts).length ≤
        pts.length) :=
  ⟨fun p maxP target init fuel pts iters total =>
      postCheckRun_length_le refit hrefit p maxP target init fuel pts iters total,
    fun p target maxIter fuel sumRe pts =>
      agrgRErun_length_le refit hrefit p target maxIter fuel sumRe pts,
    fun p pts => agrgRUstage_length_le p pts,
    fun pRU maxRU tRU pPA maxPA tPA pRE fuel pts =>
      v2WholeRun_length_le refit reeval hrefit hreeval
        pRU maxRU tRU pPA maxPA tPA pRE fuel pts,
    fun pRU pPA maxPA tPA pRE tRE maxIter fuel pts =>
      agrgWholeRun_length_le refit reeval hrefit hreeval
        pRU pPA maxPA tPA pRE tRE maxIter fuel pts⟩

/-- Witness for C10 with the identity refit and re-evaluation at the
v2 RU configuration on the ten-point array. -/
theorem point_count_nonincreasing_witness :
    (postCheckRun id 20 45 15 10 3 tenPoints 0 0).ptsOf.length ≤
      tenPoints.length :=
  (point_count_nonincreasing id id (fun _ => rfl) (fun _ => rfl)).1
    20 45 15 10 3 tenPoints 0 0

end Agisoft
